import Mathlib

/-!
Shallow embedding of the NASA launch-control server core:
the launch registry (`src/server/src/models/launches.model.js`,
`src/server/src/routes/launches/launches.controller.js`) and the
habitable-planet ingestion pipeline
(`src/server/src/models/planets.model.js`).

The MongoDB `launches` collection is modelled as a `List Launch`
(document order = insertion order); the `planets` collection as a
`List String` of `keplerName` values.  Mongoose queries are modelled
with their documented semantics: `findOne().sort('-flightNumber')`
returns a document carrying the maximal `flightNumber`;
`findOneAndUpdate(..., {upsert:true})` replaces the first matching
document or appends; `updateOne` applies a `$set` to the first matching
document and reports `modifiedCount = 1` only when the document actually
changed.  Dates are modelled as integers (millisecond timestamps); the
JS date parser `new Date : String → Date` is an explicit parameter
`parseDate : String → Option Int` (`none` = Invalid Date).
-/

set_option autoImplicit false

namespace NasaLaunchControl

/-- A persisted Launch document (schema of `launches.mongo`). -/
structure Launch where
  flightNumber : Nat
  launchDate : Int
  mission : String
  rocket : String
  target : String
  customers : List String
  upcoming : Bool
  success : Bool
  deriving Repr, DecidableEq

/-- The request body of `POST /launches` as the controller sees it:
each field either absent (`none`) or a string (`""` is falsy in JS,
exactly like an absent field under the `!launch.mission` check). -/
structure LaunchRequest where
  mission : Option String
  rocket : Option String
  launchDate : Option String
  target : Option String
  deriving Repr, DecidableEq

/-- The candidate object handed to `addNewLaunch` after validation:
the four caller-supplied data fields, plus whatever values the caller
may have smuggled in for the server-controlled fields (`Object.assign`
overwrites these, so they are carried here to state that they are
ignored). -/
structure Candidate where
  mission : String
  rocket : String
  launchDate : Int
  target : String
  flightNumber : Option Nat := none
  customers : Option (List String) := none
  upcoming : Option Bool := none
  success : Option Bool := none
  deriving Repr, DecidableEq

/-- `DEFAULT_CUSTOMERS` from `launches.model.js`. -/
def DEFAULT_CUSTOMERS : List String := ["Zero to Mastery", "NASA"]

/-- The maximal `flightNumber` among the stored documents
(`none` when the collection is empty): the document returned by
`Launch.findOne().sort('-flightNumber')` carries this number. -/
def maxFlightNumber : List Launch → Option Nat
  | [] => none
  | l :: ls =>
    match maxFlightNumber ls with
    | none => some l.flightNumber
    | some m => some (max l.flightNumber m)

/-- `getLatestFlightNumber` from `launches.model.js`: the flight number
of the latest launch, or the baseline `100` when the collection is
empty. -/
def getLatestFlightNumber (store : List Launch) : Nat :=
  match maxFlightNumber store with
  | none => 100
  | some m => m

/-- `existsLaunchWithId` from `launches.model.js`:
`Launch.findOne({flightNumber: launchId})`. -/
def existsLaunchWithId (store : List Launch) (launchId : Nat) : Option Launch :=
  store.find? (fun l => l.flightNumber == launchId)

/-- `saveLaunch` from `launches.model.js`:
`Launch.findOneAndUpdate({flightNumber}, launch, {upsert: true})` —
replace the first document with this `flightNumber`, or insert. -/
def saveLaunch : List Launch → Launch → List Launch
  | [], l => [l]
  | x :: xs, l =>
    if x.flightNumber == l.flightNumber then l :: xs
    else x :: saveLaunch xs l

/-- `addNewLaunch` from `launches.model.js`: allocate
`getLatestFlightNumber() + 1`, build the record with
`Object.assign(launch, {flightNumber, customers, upcoming, success})`
(the second argument overwrites any caller-supplied values), save it,
and return it.  Result: (returned record, updated store). -/
def addNewLaunch (store : List Launch) (c : Candidate) : Launch × List Launch :=
  let newFlightNumber := getLatestFlightNumber store + 1
  let newLaunch : Launch :=
    { flightNumber := newFlightNumber
      launchDate := c.launchDate
      mission := c.mission
      rocket := c.rocket
      target := c.target
      customers := DEFAULT_CUSTOMERS
      upcoming := true
      success := true }
  (newLaunch, saveLaunch store newLaunch)

/-- The `$set {upcoming: false, success: false}` applied by
`abortLaunchById`'s `updateOne`. -/
def abortUpdate (l : Launch) : Launch :=
  { l with upcoming := false, success := false }

/-- `Launch.updateOne({flightNumber: launchId}, {upcoming: false,
success: false})`: apply the `$set` to the first matching document;
the returned count is MongoDB's `modifiedCount`, which is `1` only when
the matched document actually changed. -/
def updateOneAbort : List Launch → Nat → Nat × List Launch
  | [], _ => (0, [])
  | x :: xs, launchId =>
    if x.flightNumber == launchId then
      (if abortUpdate x = x then 0 else 1, abortUpdate x :: xs)
    else
      let r := updateOneAbort xs launchId
      (r.1, x :: r.2)

/-- `abortLaunchById` from `launches.model.js`: run the targeted update
and return `aborted.modifiedCount === 1`. -/
def abortLaunchById (store : List Launch) (launchId : Nat) : Bool × List Launch :=
  let r := updateOneAbort store launchId
  (r.1 == 1, r.2)

/-- `getAllLaunches` from `launches.model.js` (no pagination in use):
all launches sorted ascending by `flightNumber`. -/
def getAllLaunches (store : List Launch) : List Launch :=
  store.mergeSort (fun a b => a.flightNumber ≤ b.flightNumber)

/-- Outcomes of `httpAddNewLaunch` (`launches.controller.js`):
`400 Missing required launch property`, `400 Invalid launch date`,
or `201` with the created record. -/
inductive CreateResult where
  | missingField
  | invalidDate
  | created (l : Launch)
  deriving Repr, DecidableEq

/-- JS falsiness of an optional string field: `!launch.mission` is true
when the field is absent or the empty string. -/
def isMissing : Option String → Bool
  | none => true
  | some s => s.isEmpty

/-- `httpAddNewLaunch` from `launches.controller.js`: reject when any of
the four fields is missing/empty, then parse the date (rejecting
`Invalid Date`), then call `addNewLaunch` and return the saved record.
Result: (HTTP outcome, updated store). -/
def httpAddNewLaunch (parseDate : String → Option Int)
    (store : List Launch) (req : LaunchRequest) : CreateResult × List Launch :=
  if isMissing req.mission || isMissing req.rocket
      || isMissing req.launchDate || isMissing req.target then
    (.missingField, store)
  else
    match parseDate (req.launchDate.getD "") with
    | none => (.invalidDate, store)
    | some d =>
      let r := addNewLaunch store
        { mission := req.mission.getD ""
          rocket := req.rocket.getD ""
          launchDate := d
          target := req.target.getD "" }
      (.created r.1, r.2)

/-- Outcomes of `httpAbortLaunch` (`launches.controller.js`):
`404 Launch not found`, `400 Launch not aborted`, or `200 {ok:true}`. -/
inductive AbortResult where
  | notFound
  | notAborted
  | ok
  deriving Repr, DecidableEq

/-- `httpAbortLaunch` from `launches.controller.js`: check existence
(`404` if absent), run `abortLaunchById` (`400` when it reports
failure), else `200`.  Result: (HTTP outcome, updated store). -/
def httpAbortLaunch (store : List Launch) (launchId : Nat) :
    AbortResult × List Launch :=
  match existsLaunchWithId store launchId with
  | none => (.notFound, store)
  | some _ =>
    let r := abortLaunchById store launchId
    if r.1 then (.ok, r.2) else (.notAborted, r.2)

/-- One parsed CSV row (`kepler_data.csv` columns used by
`planets.model.js`).  Numeric columns are modelled as exact rationals:
the claims only compare them against the decimal constants `0.36`,
`1.11`, `1.6`, on which the JS float64 comparison and the rational
comparison agree.  Name columns are strings; `""` is JS-falsy, i.e.
behaves like an absent value under `data.kepler_name || data.kepoi_name`. -/
structure PlanetRow where
  koi_disposition : String
  koi_insol : Rat
  koi_prad : Rat
  kepler_name : String
  kepoi_name : String
  deriving Repr, DecidableEq

/-- `isHabitablePlanet` from `planets.model.js`. -/
def isHabitablePlanet (planet : PlanetRow) : Bool :=
  planet.koi_disposition == "CONFIRMED"
    && decide (planet.koi_insol > 0.36) && decide (planet.koi_insol < 1.11)
    && decide (planet.koi_prad < 1.6)

/-- The name stored for a habitable row:
`data.kepler_name || data.kepoi_name`, then dropped when still falsy
(`if (planetName)`). -/
def resolveName (planet : PlanetRow) : Option String :=
  let planetName :=
    if planet.kepler_name.isEmpty then planet.kepoi_name else planet.kepler_name
  if planetName.isEmpty then none else some planetName

/-- The in-memory `habitablePlanets` list accumulated by the `data`
handler over a fully read stream. -/
def habitableNames (rows : List PlanetRow) : List String :=
  rows.filterMap (fun r => if isHabitablePlanet r then resolveName r else none)

/-- A CSV data source as the stream sees it: the rows it emits, and
whether it raises a read/parse error after emitting `k` of them
(`failsAfter = some k`), in which case the `end` handler never runs. -/
structure PlanetSource where
  rows : List PlanetRow
  failsAfter : Option Nat
  deriving Repr, DecidableEq

/-- `Planet.deleteMany({})` in the `end` handler. -/
def deleteManyPlanets (_store : List String) : List String := []

/-- `Planet.insertMany(planetsToSave)` in the `end` handler. -/
def insertManyPlanets (store : List String) (names : List String) : List String :=
  store ++ names

/-- `loadPlanetsData` from `planets.model.js` over a persisted planet
store (list of `keplerName` values).  A stream error hits the `error`
handler, which rejects before any store mutation; a successful
end-of-stream runs the `end` handler: `deleteMany({})`, then
`insertMany` of the habitable names (skipped when the list is empty).
Result: (promise outcome, persisted store afterwards). -/
def loadPlanetsData (store : List String) (src : PlanetSource) :
    Except Unit Unit × List String :=
  match src.failsAfter with
  | some _ => (.error (), store)
  | none =>
    let habitablePlanets := habitableNames src.rows
    let cleared := deleteManyPlanets store
    (.ok (),
      if habitablePlanets.isEmpty then cleared
      else insertManyPlanets cleared habitablePlanets)

/-- Iterate successful `createLaunch` (= `addNewLaunch`) calls over a
store, collecting the allocated `flightNumber`s in order. -/
def runCreates (store : List Launch) : List Candidate → List Nat × List Launch
  | [] => ([], store)
  | c :: cs =>
    let r := addNewLaunch store c
    let rest := runCreates r.2 cs
    (r.1.flightNumber :: rest.1, rest.2)


/-- A concrete launch record, used as a fixture in closed witness and
counterexample statements. -/
def sampleLaunch (n : Nat) : Launch :=
  { flightNumber := n, launchDate := 0, mission := "M", rocket := "R",
    target := "T", customers := DEFAULT_CUSTOMERS, upcoming := true,
    success := true }

/-- A concrete creation candidate fixture. -/
def sampleCandidate : Candidate :=
  { mission := "M", rocket := "R", launchDate := 0, target := "T" }

/-- A concrete CSV row fixture. -/
def samplePlanetRow (disp : String) (insol prad : Rat) : PlanetRow :=
  { koi_disposition := disp, koi_insol := insol, koi_prad := prad,
    kepler_name := "K", kepoi_name := "" }

/-! ### Helper lemmas about the launch registry -/

theorem maxFlightNumber_eq_none_iff (store : List Launch) :
    maxFlightNumber store = none ↔ store = [] := by
  cases store with
  | nil => simp [maxFlightNumber]
  | cons x xs =>
    simp only [maxFlightNumber]
    cases maxFlightNumber xs <;> simp

theorem le_of_mem_maxFlightNumber {store : List Launch} {m : Nat}
    (h : maxFlightNumber store = some m) :
    ∀ l ∈ store, l.flightNumber ≤ m := by
  induction store generalizing m with
  | nil => simp
  | cons x xs ih =>
    intro l hl
    simp only [maxFlightNumber] at h
    rcases List.mem_cons.mp hl with hl | hl
    · subst hl
      cases hxs : maxFlightNumber xs with
      | none => rw [hxs] at h; injection h with h; omega
      | some m' => rw [hxs] at h; injection h with h; omega
    · cases hxs : maxFlightNumber xs with
      | none =>
        exact absurd hl (by simp [(maxFlightNumber_eq_none_iff xs).mp hxs])
      | some m' =>
        rw [hxs] at h
        injection h with h
        have := ih hxs l hl
        omega

theorem mem_of_maxFlightNumber {store : List Launch} {m : Nat}
    (h : maxFlightNumber store = some m) :
    ∃ l ∈ store, l.flightNumber = m := by
  induction store generalizing m with
  | nil => simp [maxFlightNumber] at h
  | cons x xs ih =>
    simp only [maxFlightNumber] at h
    cases hxs : maxFlightNumber xs with
    | none =>
      rw [hxs] at h
      injection h with h
      exact ⟨x, by simp, h⟩
    | some m' =>
      rw [hxs] at h
      injection h with h
      rcases le_total x.flightNumber m' with hc | hc
      · obtain ⟨l, hl, hlm⟩ := ih hxs
        exact ⟨l, List.mem_cons_of_mem x hl, by omega⟩
      · exact ⟨x, List.mem_cons_self x xs, by omega⟩

theorem flightNumber_le_getLatest {store : List Launch} :
    ∀ l ∈ store, l.flightNumber ≤ getLatestFlightNumber store := by
  intro l hl
  unfold getLatestFlightNumber
  cases h : maxFlightNumber store with
  | none => simp [(maxFlightNumber_eq_none_iff store).mp h] at hl
  | some m => exact le_of_mem_maxFlightNumber h l hl

theorem saveLaunch_of_forall_ne {store : List Launch} {l : Launch}
    (h : ∀ x ∈ store, x.flightNumber ≠ l.flightNumber) :
    saveLaunch store l = store ++ [l] := by
  induction store with
  | nil => rfl
  | cons x xs ih =>
    have hx : x.flightNumber ≠ l.flightNumber := h x (by simp)
    simp only [saveLaunch, beq_iff_eq, if_neg hx, List.cons_append]
    rw [ih (fun y hy => h y (by simp [hy]))]

theorem self_mem_saveLaunch (store : List Launch) (l : Launch) :
    l ∈ saveLaunch store l := by
  induction store with
  | nil => simp [saveLaunch]
  | cons x xs ih =>
    by_cases hx : x.flightNumber = l.flightNumber
    · simp [saveLaunch, hx]
    · simp only [saveLaunch, beq_iff_eq, if_neg hx]
      exact List.mem_cons_of_mem x ih

theorem maxFlightNumber_append_gt {store : List Launch} {l : Launch}
    (h : ∀ x ∈ store, x.flightNumber < l.flightNumber) :
    maxFlightNumber (store ++ [l]) = some l.flightNumber := by
  induction store with
  | nil => rfl
  | cons x xs ih =>
    have hx := h x (by simp)
    rw [List.cons_append]
    simp only [maxFlightNumber]
    rw [ih (fun y hy => h y (by simp [hy]))]
    simp [Nat.max_eq_right (Nat.le_of_lt hx)]

theorem addNewLaunch_fst_flightNumber (store : List Launch) (c : Candidate) :
    (addNewLaunch store c).1.flightNumber = getLatestFlightNumber store + 1 := rfl

theorem addNewLaunch_snd (store : List Launch) (c : Candidate) :
    (addNewLaunch store c).2 = store ++ [(addNewLaunch store c).1] := by
  have h : ∀ x ∈ store, x.flightNumber ≠ (addNewLaunch store c).1.flightNumber := by
    intro x hx
    rw [addNewLaunch_fst_flightNumber]
    have := flightNumber_le_getLatest x hx
    omega
  exact saveLaunch_of_forall_ne h

theorem getLatestFlightNumber_addNewLaunch (store : List Launch) (c : Candidate) :
    getLatestFlightNumber (addNewLaunch store c).2 =
      getLatestFlightNumber store + 1 := by
  rw [addNewLaunch_snd]
  have h : ∀ x ∈ store, x.flightNumber < (addNewLaunch store c).1.flightNumber := by
    intro x hx
    rw [addNewLaunch_fst_flightNumber]
    have := flightNumber_le_getLatest x hx
    omega
  unfold getLatestFlightNumber
  rw [maxFlightNumber_append_gt h, addNewLaunch_fst_flightNumber]
  rfl

theorem runCreates_fst (cs : List Candidate) : ∀ store : List Launch,
    (runCreates store cs).1 =
      List.range' (getLatestFlightNumber store + 1) cs.length := by
  induction cs with
  | nil => intro store; rfl
  | cons c cs ih =>
    intro store
    simp only [runCreates, ih, getLatestFlightNumber_addNewLaunch,
      addNewLaunch_fst_flightNumber, List.length_cons, List.range'_succ]

theorem chain'_lt_range' (s n : Nat) : List.Chain' (· < ·) (List.range' s n) := by
  cases n with
  | zero => simp
  | succ k =>
    rw [List.range'_succ]
    exact List.chain_lt_range' s k (by omega)

theorem updateOneAbort_split (pre : List Launch) (l : Launch) (post : List Launch)
    (n : Nat) (hl : l.flightNumber = n) (hpre : ∀ x ∈ pre, x.flightNumber ≠ n) :
    updateOneAbort (pre ++ l :: post) n =
      (if abortUpdate l = l then 0 else 1, pre ++ abortUpdate l :: post) := by
  induction pre with
  | nil => simp [updateOneAbort, hl]
  | cons x xs ih =>
    have hx : x.flightNumber ≠ n := hpre x (by simp)
    simp only [List.cons_append, updateOneAbort, beq_iff_eq, if_neg hx, List.append_eq]
    rw [ih (fun y hy => hpre y (by simp [hy]))]

theorem abortUpdate_eq_self_iff (l : Launch) :
    abortUpdate l = l ↔ l.upcoming = false ∧ l.success = false := by
  cases l
  simp [abortUpdate, Launch.mk.injEq, eq_comm]

theorem updateOneAbort_twice (store : List Launch) (n : Nat) :
    (updateOneAbort (updateOneAbort store n).2 n).1 = 0 := by
  induction store with
  | nil => rfl
  | cons x xs ih =>
    by_cases hx : x.flightNumber = n
    · have hx2 : (abortUpdate x).flightNumber = n := hx
      simp only [updateOneAbort, beq_iff_eq, if_pos hx, if_pos hx2]
      have habs : abortUpdate (abortUpdate x) = abortUpdate x := rfl
      simp [habs]
    · simp only [updateOneAbort, beq_iff_eq, if_neg hx]
      exact ih

theorem isMissing_iff (f : Option String) :
    isMissing f = true ↔ f = none ∨ f = some "" := by
  cases f with
  | none => simp [isMissing]
  | some s => simp [isMissing, String.isEmpty_iff]

theorem isHabitablePlanet_iff (p : PlanetRow) :
    isHabitablePlanet p = true ↔
      p.koi_disposition = "CONFIRMED" ∧ 0.36 < p.koi_insol ∧
        p.koi_insol < 1.11 ∧ p.koi_prad < 1.6 := by
  simp [isHabitablePlanet, and_assoc]

theorem loadPlanetsData_snd_ok (store : List String) (src : PlanetSource)
    (hok : src.failsAfter = none) :
    (loadPlanetsData store src).2 = habitableNames src.rows := by
  simp only [loadPlanetsData, hok]
  by_cases h : (habitableNames src.rows).isEmpty
  · simp [h, deleteManyPlanets, List.isEmpty_iff.mp h]
  · simp [h, deleteManyPlanets, insertManyPlanets]

/-! ### Claim theorems -/

/-- C1: Over any sequence of successful `createLaunch` calls starting
from an empty store, the allocated `flightNumber`s are strictly
increasing and the first one is `101`; in general each allocation is
`getLatestFlightNumber + 1`, where `getLatestFlightNumber` is the
maximum `flightNumber` present in the store, or the baseline `100` when
the store holds no Launch. -/
theorem createLaunch_monotonic_allocation :
    (∀ cs : List Candidate, (runCreates [] cs).1 = List.range' 101 cs.length) ∧
    (∀ cs : List Candidate, List.Chain' (· < ·) (runCreates [] cs).1) ∧
    (∀ cs : List Candidate, cs ≠ [] → (runCreates [] cs).1.head? = some 101) ∧
    (∀ (store : List Launch) (c : Candidate),
      (addNewLaunch store c).1.flightNumber = getLatestFlightNumber store + 1) ∧
    (∀ store : List Launch, store = [] → getLatestFlightNumber store = 100) ∧
    (∀ (store : List Launch) (m : Nat), maxFlightNumber store = some m →
      getLatestFlightNumber store = m ∧ (∃ l ∈ store, l.flightNumber = m) ∧
        ∀ l ∈ store, l.flightNumber ≤ m) := by
  refine ⟨fun cs => runCreates_fst cs [], fun cs => ?_, fun cs hcs => ?_,
    addNewLaunch_fst_flightNumber, fun store h => by subst h; rfl,
    fun store m hm => ⟨by simp [getLatestFlightNumber, hm],
      mem_of_maxFlightNumber hm, le_of_mem_maxFlightNumber hm⟩⟩
  · rw [runCreates_fst cs []]
    exact chain'_lt_range' _ _
  · rw [runCreates_fst cs []]
    cases cs with
    | nil => exact absurd rfl hcs
    | cons c cs => simp [List.range'_succ, getLatestFlightNumber, maxFlightNumber]

/-- Witness for C1 at concrete inputs: two creations from the empty
store allocate `101` first; the empty store's baseline is `100`; for a
store holding flight `101`, the maximum is found and bounds every
record. -/
theorem createLaunch_monotonic_allocation_witness :
    (runCreates [] [sampleCandidate, sampleCandidate]).1.head? = some 101 ∧
    getLatestFlightNumber [] = 100 ∧
    (getLatestFlightNumber [sampleLaunch 101] = 101 ∧
      (∃ l ∈ [sampleLaunch 101], Launch.flightNumber l = 101) ∧
      ∀ l ∈ [sampleLaunch 101], Launch.flightNumber l ≤ 101) :=
  ⟨createLaunch_monotonic_allocation.2.2.1 _ (by simp),
   createLaunch_monotonic_allocation.2.2.2.2.1 [] rfl,
   createLaunch_monotonic_allocation.2.2.2.2.2 _ 101 rfl⟩

/-- C2: When `abortLaunchById n` succeeds on a store whose (first)
record with `flightNumber = n` is `l`, the resulting store replaces `l`
by `l` with `upcoming := false, success := false` — every other field
of `l` (mission, rocket, target, customers, launchDate, flightNumber)
and every other record is unchanged. -/
theorem abortLaunch_terminal_fields_frame (pre : List Launch) (l : Launch)
    (post : List Launch) (n : Nat) (hl : l.flightNumber = n)
    (hpre : ∀ x ∈ pre, x.flightNumber ≠ n)
    (_hsucc : (abortLaunchById (pre ++ l :: post) n).1 = true) :
    (abortLaunchById (pre ++ l :: post) n).2 =
      pre ++ { l with upcoming := false, success := false } :: post := by
  show (updateOneAbort (pre ++ l :: post) n).2 = _
  rw [updateOneAbort_split pre l post n hl hpre]
  rfl

/-- Witness for C2: aborting flight `102` in a two-record store flips
exactly that record's `upcoming`/`success` and leaves the rest alone. -/
theorem abortLaunch_terminal_fields_frame_witness :
    (abortLaunchById [sampleLaunch 101, sampleLaunch 102] 102).2 =
      [sampleLaunch 101,
       { sampleLaunch 102 with upcoming := false, success := false }] :=
  abortLaunch_terminal_fields_frame [sampleLaunch 101] (sampleLaunch 102) []
    102 rfl (by decide) (by decide)

/-- C3: `isHabitablePlanet` holds iff the disposition is exactly
`"CONFIRMED"`, `0.36 < koi_insol < 1.11` (both strict) and
`koi_prad < 1.6` (strict, no lower bound); in particular the boundary
values `koi_insol = 0.36`, `koi_insol = 1.11`, `koi_prad = 1.6` are
excluded while `koi_prad = 1.59999` is included. -/
theorem habitability_filter_boundary :
    (∀ p : PlanetRow, isHabitablePlanet p = true ↔
      p.koi_disposition = "CONFIRMED" ∧ 0.36 < p.koi_insol ∧
        p.koi_insol < 1.11 ∧ p.koi_prad < 1.6) ∧
    (∀ p : PlanetRow, p.koi_insol = 0.36 → isHabitablePlanet p = false) ∧
    (∀ p : PlanetRow, p.koi_insol = 1.11 → isHabitablePlanet p = false) ∧
    (∀ p : PlanetRow, p.koi_prad = 1.6 → isHabitablePlanet p = false) ∧
    isHabitablePlanet (samplePlanetRow "CONFIRMED" 1 1.59999) = true := by
  refine ⟨isHabitablePlanet_iff, fun p hp => ?_, fun p hp => ?_, fun p hp => ?_, ?_⟩
  · cases hb : isHabitablePlanet p with
    | false => rfl
    | true =>
      obtain ⟨-, h2, -, -⟩ := (isHabitablePlanet_iff p).mp hb
      rw [hp] at h2
      exact absurd h2 (lt_irrefl _)
  · cases hb : isHabitablePlanet p with
    | false => rfl
    | true =>
      obtain ⟨-, -, h3, -⟩ := (isHabitablePlanet_iff p).mp hb
      rw [hp] at h3
      exact absurd h3 (lt_irrefl _)
  · cases hb : isHabitablePlanet p with
    | false => rfl
    | true =>
      obtain ⟨-, -, -, h4⟩ := (isHabitablePlanet_iff p).mp hb
      rw [hp] at h4
      exact absurd h4 (lt_irrefl _)
  · rw [isHabitablePlanet_iff]
    exact ⟨rfl, by norm_num [samplePlanetRow], by norm_num [samplePlanetRow],
      by norm_num [samplePlanetRow]⟩

/-- Witness for C3 at concrete rows: each boundary hypothesis
discharged on an explicit row. -/
theorem habitability_filter_boundary_witness :
    isHabitablePlanet (samplePlanetRow "CONFIRMED" 0.36 1) = false ∧
    isHabitablePlanet (samplePlanetRow "CONFIRMED" 1.11 1) = false ∧
    isHabitablePlanet (samplePlanetRow "CONFIRMED" 1 1.6) = false :=
  ⟨habitability_filter_boundary.2.1 _ rfl,
   habitability_filter_boundary.2.2.1 _ rfl,
   habitability_filter_boundary.2.2.2.1 _ rfl⟩

/-- C4: A data source that raises a read/parse error mid-stream makes
`loadPlanetsData` fail with no persisted mutation: the Planet set after
the failed attempt equals the set before it. -/
theorem ingestion_no_partial_write (store : List String) (src : PlanetSource)
    (k : Nat) (hfail : src.failsAfter = some k) :
    (loadPlanetsData store src).1 = .error () ∧
    (loadPlanetsData store src).2 = store := by
  simp [loadPlanetsData, hfail]

/-- Witness for C4: a source failing after one row leaves the persisted
set `["Kepler-442 b"]` untouched. -/
theorem ingestion_no_partial_write_witness :
    (loadPlanetsData ["Kepler-442 b"]
        { rows := [samplePlanetRow "CONFIRMED" 1 1], failsAfter := some 1 }).1 =
      .error () ∧
    (loadPlanetsData ["Kepler-442 b"]
        { rows := [samplePlanetRow "CONFIRMED" 1 1], failsAfter := some 1 }).2 =
      ["Kepler-442 b"] :=
  ingestion_no_partial_write _ _ 1 rfl

/-- C5: `httpAddNewLaunch` rejects a request with any of the four
fields absent or empty with `MissingField`, and a request whose
`launchDate` does not parse (given all fields present) with
`InvalidDate`; in both cases the store is returned unchanged (no
mutation attempted). -/
theorem createLaunch_validation_failfast (parseDate : String → Option Int)
    (store : List Launch) (req : LaunchRequest) :
    (((req.mission = none ∨ req.mission = some "") ∨
      (req.rocket = none ∨ req.rocket = some "") ∨
      (req.launchDate = none ∨ req.launchDate = some "") ∨
      (req.target = none ∨ req.target = some "")) →
        httpAddNewLaunch parseDate store req = (.missingField, store)) ∧
    ((¬((req.mission = none ∨ req.mission = some "") ∨
        (req.rocket = none ∨ req.rocket = some "") ∨
        (req.launchDate = none ∨ req.launchDate = some "") ∨
        (req.target = none ∨ req.target = some ""))) →
      parseDate (req.launchDate.getD "") = none →
        httpAddNewLaunch parseDate store req = (.invalidDate, store)) := by
  constructor
  · intro h
    have hcond : (isMissing req.mission || isMissing req.rocket
        || isMissing req.launchDate || isMissing req.target) = true := by
      rcases h with h | h | h | h
      · simp [(isMissing_iff _).mpr h]
      · simp [(isMissing_iff _).mpr h]
      · simp [(isMissing_iff _).mpr h]
      · simp [(isMissing_iff _).mpr h]
    simp [httpAddNewLaunch, hcond]
  · intro h1 h2
    have hm : isMissing req.mission = false := by
      cases hb : isMissing req.mission
      · rfl
      · exact absurd (Or.inl ((isMissing_iff _).mp hb)) h1
    have hr : isMissing req.rocket = false := by
      cases hb : isMissing req.rocket
      · rfl
      · exact absurd (Or.inr (Or.inl ((isMissing_iff _).mp hb))) h1
    have hd : isMissing req.launchDate = false := by
      cases hb : isMissing req.launchDate
      · rfl
      · exact absurd (Or.inr (Or.inr (Or.inl ((isMissing_iff _).mp hb)))) h1
    have ht : isMissing req.target = false := by
      cases hb : isMissing req.target
      · rfl
      · exact absurd (Or.inr (Or.inr (Or.inr ((isMissing_iff _).mp hb)))) h1
    simp [httpAddNewLaunch, hm, hr, hd, ht, h2]

/-- Witness for C5: a request missing `target` is rejected with
`MissingField`, and a complete request whose date does not parse is
rejected with `InvalidDate`; the (empty) store is unchanged in both
cases. -/
theorem createLaunch_validation_failfast_witness :
    httpAddNewLaunch (fun _ => none) []
        { mission := some "M", rocket := some "R",
          launchDate := some "2024-01-01", target := none } =
      (.missingField, []) ∧
    httpAddNewLaunch (fun _ => none) []
        { mission := some "M", rocket := some "R",
          launchDate := some "not a date", target := some "Kepler-442 b" } =
      (.invalidDate, []) :=
  ⟨(createLaunch_validation_failfast (fun _ => none) []
      { mission := some "M", rocket := some "R",
        launchDate := some "2024-01-01", target := none }).1
      (by simp),
   (createLaunch_validation_failfast (fun _ => none) []
      { mission := some "M", rocket := some "R",
        launchDate := some "not a date", target := some "Kepler-442 b" }).2
      (by simp) rfl⟩

/-- C6: `addNewLaunch` returns the fully populated record that it
persisted: the allocated `flightNumber`, the candidate's mission,
rocket, launchDate and target, the fixed customers pair, and
`upcoming = success = true`; the returned record is a member of the
updated store. -/
theorem createLaunch_returns_persisted_record (store : List Launch)
    (c : Candidate) :
    (addNewLaunch store c).1 =
      { flightNumber := getLatestFlightNumber store + 1
        launchDate := c.launchDate
        mission := c.mission
        rocket := c.rocket
        target := c.target
        customers := ["Zero to Mastery", "NASA"]
        upcoming := true
        success := true } ∧
    (addNewLaunch store c).1 ∈ (addNewLaunch store c).2 :=
  ⟨rfl, self_mem_saveLaunch store (addNewLaunch store c).1⟩

/-- Counterexample to C7 as stated: on a store holding the single
upcoming launch `101`, the first `abortLaunchById 101` reports success
but the second reports failure (`modifiedCount = 0`), so repeat-abort
is NOT treated as success. -/
theorem abort_repeat_counterexample :
    (abortLaunchById [sampleLaunch 101] 101).1 = true ∧
    (abortLaunchById ((abortLaunchById [sampleLaunch 101] 101).2) 101).1 =
      false := by
  decide

/-- C7 (amended): the first abort of an existing launch that is still
upcoming or still marked successful reports success, but re-running
`abortLaunchById` with the same id directly after any `abortLaunchById`
call reports failure: the targeted update changes no field the second
time, so the store reports zero modified documents. -/
theorem abort_repeat_second_fails (store : List Launch) (n : Nat) :
    (abortLaunchById ((abortLaunchById store n).2) n).1 = false ∧
    ∀ pre l post, store = pre ++ l :: post → l.flightNumber = n →
      (∀ x ∈ pre, x.flightNumber ≠ n) →
      (l.upcoming = true ∨ l.success = true) →
      (abortLaunchById store n).1 = true := by
  constructor
  · show ((updateOneAbort (updateOneAbort store n).2 n).1 == 1) = false
    rw [updateOneAbort_twice]
    rfl
  · intro pre l post hsplit hl hpre hlive
    subst hsplit
    show ((updateOneAbort (pre ++ l :: post) n).1 == 1) = true
    rw [updateOneAbort_split pre l post n hl hpre]
    have : ¬(abortUpdate l = l) := by
      rw [abortUpdate_eq_self_iff]
      rcases hlive with h | h <;> simp [h]
    simp [this]

/-- Witness for C7 (amended) at a concrete store: aborting launch `101`
succeeds once and fails on the repeat. -/
theorem abort_repeat_second_fails_witness :
    (abortLaunchById ((abortLaunchById [sampleLaunch 101] 101).2) 101).1 =
      false ∧
    (abortLaunchById [sampleLaunch 101] 101).1 = true :=
  ⟨(abort_repeat_second_fails [sampleLaunch 101] 101).1,
   (abort_repeat_second_fails [sampleLaunch 101] 101).2 [] (sampleLaunch 101)
     [] rfl rfl (by simp) (Or.inl rfl)⟩

/-- C8: On a source that reads to the end, ingestion is a full replace:
running it twice on the same source gives the same Planet set as
running it once; the resulting set is exactly the delete-everything
followed by bulk-insert of the computed habitable names; and when the
computed set is empty the delete still leaves zero planets regardless
of the previous store. -/
theorem ingestion_full_replace_idempotent (store : List String)
    (src : PlanetSource) (hok : src.failsAfter = none) :
    (loadPlanetsData (loadPlanetsData store src).2 src).2 =
      (loadPlanetsData store src).2 ∧
    (loadPlanetsData store src).2 =
      insertManyPlanets (deleteManyPlanets store) (habitableNames src.rows) ∧
    (habitableNames src.rows = [] → (loadPlanetsData store src).2 = []) := by
  refine ⟨?_, ?_, fun hemp => ?_⟩
  · rw [loadPlanetsData_snd_ok _ _ hok, loadPlanetsData_snd_ok _ _ hok]
  · rw [loadPlanetsData_snd_ok _ _ hok]
    rfl
  · rw [loadPlanetsData_snd_ok _ _ hok, hemp]

/-- Witness for C8: one habitable and one rejected row; a repeat run
reproduces the same set, and an all-rejected source empties the store. -/
theorem ingestion_full_replace_idempotent_witness :
    (loadPlanetsData
        (loadPlanetsData ["old"]
          { rows := [samplePlanetRow "FALSE POSITIVE" 1 1],
            failsAfter := none }).2
        { rows := [samplePlanetRow "FALSE POSITIVE" 1 1],
          failsAfter := none }).2 =
      (loadPlanetsData ["old"]
        { rows := [samplePlanetRow "FALSE POSITIVE" 1 1],
          failsAfter := none }).2 ∧
    (loadPlanetsData ["old"]
        { rows := [samplePlanetRow "FALSE POSITIVE" 1 1],
          failsAfter := none }).2 = [] :=
  ⟨(ingestion_full_replace_idempotent ["old"]
      { rows := [samplePlanetRow "FALSE POSITIVE" 1 1],
        failsAfter := none } rfl).1,
   (ingestion_full_replace_idempotent ["old"]
      { rows := [samplePlanetRow "FALSE POSITIVE" 1 1],
        failsAfter := none } rfl).2.2 rfl⟩

/-- C9: `httpAbortLaunch` on a flight number with no matching record
returns `NotFound` and leaves the store unchanged. -/
theorem abortLaunch_unknown_notFound (store : List Launch) (n : Nat)
    (h : ∀ l ∈ store, l.flightNumber ≠ n) :
    httpAbortLaunch store n = (.notFound, store) := by
  unfold httpAbortLaunch existsLaunchWithId
  rw [List.find?_eq_none.mpr (fun l hl => by simpa using h l hl)]

/-- Witness for C9: `abortLaunch 99999` against the empty store is
`NotFound`. -/
theorem abortLaunch_unknown_notFound_witness :
    httpAbortLaunch [] 99999 = (.notFound, []) :=
  abortLaunch_unknown_notFound [] 99999 (by simp)

/-- C10: caller-supplied values for `flightNumber`, `customers`,
`upcoming` or `success` in the candidate are ignored: the returned and
persisted record always carries the freshly allocated `flightNumber`,
the fixed customers pair and `upcoming = success = true`, and two
candidates differing only in those fields produce identical results. -/
theorem createLaunch_ignores_caller_fields (store : List Launch)
    (c : Candidate) :
    (addNewLaunch store c).1.flightNumber = getLatestFlightNumber store + 1 ∧
    (addNewLaunch store c).1.customers = ["Zero to Mastery", "NASA"] ∧
    (addNewLaunch store c).1.upcoming = true ∧
    (addNewLaunch store c).1.success = true ∧
    (addNewLaunch store c).1 ∈ (addNewLaunch store c).2 ∧
    ∀ c' : Candidate, c'.mission = c.mission → c'.rocket = c.rocket →
      c'.launchDate = c.launchDate → c'.target = c.target →
      addNewLaunch store c' = addNewLaunch store c := by
  refine ⟨rfl, rfl, rfl, rfl, self_mem_saveLaunch store _, ?_⟩
  intro c' h1 h2 h3 h4
  unfold addNewLaunch
  rw [h1, h2, h3, h4]

/-- Witness for C10: a candidate smuggling `flightNumber := 5`,
`customers := ["EvilCorp"]`, `upcoming := false`, `success := false`
creates exactly the same result as the plain candidate. -/
theorem createLaunch_ignores_caller_fields_witness :
    addNewLaunch []
        { mission := "M", rocket := "R", launchDate := 0, target := "T",
          flightNumber := some 5, customers := some ["EvilCorp"],
          upcoming := some false, success := some false } =
      addNewLaunch [] sampleCandidate :=
  (createLaunch_ignores_caller_fields [] sampleCandidate).2.2.2.2.2
    { mission := "M", rocket := "R", launchDate := 0, target := "T",
      flightNumber := some 5, customers := some ["EvilCorp"],
      upcoming := some false, success := some false }
    rfl rfl rfl rfl

end NasaLaunchControl
